import Mathlib

set_option maxHeartbeats 1000000

/-! Verification of the flight-message normalization and field-extraction
engine of `src/api/webhook.js` (`parseMinutes`, `parseFlightMessage`).

Strings are modelled as lists of characters.  The JavaScript regular
expressions used by the parser are modelled by an explicit backtracking
matcher over a small regex syntax: alternation prefers the left branch and
repetition is greedy with backtracking, and searching tries start positions
from the left, exactly as in JavaScript.  The matcher is fuel-indexed so
that it is structurally recursive; the fuel (input length plus 500) far
exceeds the maximal call depth for the fixed, small patterns in question,
whose star bodies all consume at least one character per iteration. -/

def isDig (c : Char) : Bool := decide ('0' ≤ c ∧ c ≤ '9')

def isUp (c : Char) : Bool := decide ('A' ≤ c ∧ c ≤ 'Z')

/-- The JavaScript `\s` class, restricted to the ASCII range (inputs are
ASCII text messages). Also the character set of `String.prototype.trim`. -/
def jsSpace (c : Char) : Bool :=
  decide (c = ' ' ∨ c = '\t' ∨ c = '\n' ∨ c = '\r' ∨ c = '\x0b' ∨ c = '\x0c')

/-- Regex syntax: single-character classes, sequencing, alternation
(left branch preferred), greedy option, greedy star, capture groups. -/
inductive RE : Type where
  | eps : RE
  | cls : (Char → Bool) → RE
  | seq : RE → RE → RE
  | alt : RE → RE → RE
  | opt : RE → RE
  | star : RE → RE
  | grp : Nat → RE → RE

abbrev Caps := List (Nat × List Char)

/-- Backtracking matcher in continuation-passing style.  `reM fuel re s caps k`
tries to match `re` against a prefix of `s`, calling `k` with the remaining
input and updated captures; on failure of the continuation it backtracks into
the remaining alternatives, greedily preferring longer matches, as a
JavaScript regex engine does. -/
def reM : Nat → RE → List Char → Caps →
    (List Char → Caps → Option (Caps × List Char)) → Option (Caps × List Char)
  | 0, _, _, _, _ => none
  | fuel + 1, re, s, caps, k =>
    match re with
    | .eps => k s caps
    | .cls p =>
      match s with
      | [] => none
      | c :: rest => if p c then k rest caps else none
    | .seq a b => reM fuel a s caps (fun s1 caps1 => reM fuel b s1 caps1 k)
    | .alt a b =>
      match reM fuel a s caps k with
      | some r => some r
      | none => reM fuel b s caps k
    | .opt a =>
      match reM fuel a s caps k with
      | some r => some r
      | none => k s caps
    | .star a =>
      match reM fuel a s caps (fun s1 caps1 => reM fuel (.star a) s1 caps1 k) with
      | some r => some r
      | none => k s caps
    | .grp n a =>
      reM fuel a s caps (fun s1 caps1 =>
        k s1 ((n, s.take (s.length - s1.length)) :: caps1))

/-- Anchored match at the start of `s` (the `^`-anchored JavaScript regexes). -/
def reMatchAt (re : RE) (s : List Char) : Option (Caps × List Char) :=
  reM (s.length + 500) re s [] (fun s1 caps => some (caps, s1))

/-- Unanchored search: try start positions from the left, as JavaScript
`String.prototype.match` / `RegExp.prototype.test` do. -/
def reSearch : RE → List Char → Option Caps
  | re, s =>
    match reMatchAt re s with
    | some (caps, _) => some caps
    | none =>
      match s with
      | [] => none
      | _ :: rest => reSearch re rest

def getCap (caps : Caps) (n : Nat) : Option (List Char) :=
  (caps.find? (fun p => p.1 == n)).map (fun p => p.2)

/-- `parseInt(s, 10)` on an all-digit capture. -/
def natOfDigits (s : List Char) : Nat :=
  s.foldl (fun n c => n * 10 + (c.toNat - '0'.toNat)) 0

/-- `s.replace(re, "")` for a `^`-anchored regex: drop the matched prefix. -/
def replaceStart (re : RE) (s : List Char) : List Char :=
  match reMatchAt re s with
  | some (_, rest) => rest
  | none => s

def lit (c : Char) : RE := .cls (fun x => x == c)

/-- A case-insensitive letter (the `/i` flag on the JavaScript regexes). -/
def ci (u l : Char) : RE := .cls (fun x => x == u || x == l)

def reSeqs : List RE → RE
  | [] => .eps
  | [r] => r
  | r :: rs => .seq r (reSeqs rs)

def dig : RE := .cls isDig
def upA : RE := .cls isUp
def wsC : RE := .cls jsSpace
def colonOrDot : RE := .cls (fun c => c == ':' || c == '.')
def colonOrWs : RE := .cls (fun c => c == ':' || jsSpace c)
def hr02 : RE := .cls (fun c => decide ('0' ≤ c ∧ c ≤ '2'))
def d05 : RE := .cls (fun c => decide ('0' ≤ c ∧ c ≤ '5'))

/-- `/^CORR\s*/i` -/
def corrRe : RE := reSeqs [ci 'C' 'c', ci 'O' 'o', ci 'R' 'r', ci 'R' 'r', .star wsC]

/-- `/^\s*MVT\s*/i` -/
def mvtRe : RE := reSeqs [.star wsC, ci 'M' 'm', ci 'V' 'v', ci 'T' 't', .star wsC]

/-- `/^[A-Z]{3}\d{3}\s+\d{6}/` -/
def infoRe : RE :=
  reSeqs [upA, upA, upA, dig, dig, dig, wsC, .star wsC, dig, dig, dig, dig, dig, dig]

/-- `/^[A-Z]{3,4}-[A-Z]{3,4}/` -/
def routeRe : RE := reSeqs [upA, upA, upA, .opt upA, lit '-', upA, upA, upA, .opt upA]

/-- `/(?:C\/O|STD)[:\s]*([0-2][0-9])[:]?([0-5][0-9])?/i` -/
def stdRe : RE := reSeqs [
  .alt (reSeqs [ci 'C' 'c', lit '/', ci 'O' 'o']) (reSeqs [ci 'S' 's', ci 'T' 't', ci 'D' 'd']),
  .star colonOrWs, .grp 1 (.seq hr02 dig), .opt (lit ':'), .opt (.grp 2 (.seq d05 dig))]

/-- `/(?:A\/B|ATD)[:\s]*([0-2][0-9])[:]?([0-5][0-9])?/i` -/
def atdRe : RE := reSeqs [
  .alt (reSeqs [ci 'A' 'a', lit '/', ci 'B' 'b']) (reSeqs [ci 'A' 'a', ci 'T' 't', ci 'D' 'd']),
  .star colonOrWs, .grp 1 (.seq hr02 dig), .opt (lit ':'), .opt (.grp 2 (.seq d05 dig))]

/-- `/PAX[:\.]/i` -/
def paxTestRe : RE := reSeqs [ci 'P' 'p', ci 'A' 'a', ci 'X' 'x', colonOrDot]

/-- `(inf|INF)` (no `/i` flag on the regexes this occurs in) -/
def infMarkRe : RE :=
  .alt (reSeqs [lit 'i', lit 'n', lit 'f']) (reSeqs [lit 'I', lit 'N', lit 'F'])

/-- `/\(?(\d+)\)?\s*(\d{1,2})\/(\d{2,3})(\+(\d{1,2})(inf|INF))?/` -/
def paxT1Re : RE := reSeqs [
  .opt (lit '('), .grp 1 (.seq dig (.star dig)), .opt (lit ')'), .star wsC,
  .grp 2 (.seq dig (.opt dig)), lit '/', .grp 3 (reSeqs [dig, dig, .opt dig]),
  .opt (.grp 4 (reSeqs [lit '+', .grp 5 (.seq dig (.opt dig)), .grp 6 infMarkRe]))]

/-- `/PAX[:\.]?\s*(\d{1,2})\/(\d{2,3})/i` -/
def paxFbRe : RE := reSeqs [ci 'P' 'p', ci 'A' 'a', ci 'X' 'x', .opt colonOrDot, .star wsC,
  .grp 1 (.seq dig (.opt dig)), lit '/', .grp 2 (reSeqs [dig, dig, .opt dig])]

/-- `/\+(\d{1,2})(inf|INF)/` (no `/i` flag) -/
def infRe : RE := reSeqs [lit '+', .grp 1 (.seq dig (.opt dig)), .grp 2 infMarkRe]

/-- `/^DLY[:\.]/i` -/
def dlyTestRe : RE := reSeqs [ci 'D' 'd', ci 'L' 'l', ci 'Y' 'y', colonOrDot]

/-- `/^DLY[:\.]\s*/i` -/
def dlyStripRe : RE := .seq dlyTestRe (.star wsC)

/-- `/^SI:/i` -/
def siTestRe : RE := reSeqs [ci 'S' 's', ci 'I' 'i', lit ':']

/-- `/^SI:\s*/i` -/
def siStripRe : RE := .seq siTestRe (.star wsC)

/-- `/^Remark[:\.]/i` -/
def remarkTestRe : RE :=
  reSeqs [ci 'R' 'r', ci 'E' 'e', ci 'M' 'm', ci 'A' 'a', ci 'R' 'r', ci 'K' 'k', colonOrDot]

/-- `/^Remark[:\.]\s*/i` -/
def remarkStripRe : RE := .seq remarkTestRe (.star wsC)

/-- `/^Delay Reason[:\.]/i` -/
def delayReasonTestRe : RE := reSeqs [ci 'D' 'd', ci 'E' 'e', ci 'L' 'l', ci 'A' 'a', ci 'Y' 'y',
  lit ' ', ci 'R' 'r', ci 'E' 'e', ci 'A' 'a', ci 'S' 's', ci 'O' 'o', ci 'N' 'n', colonOrDot]

/-- `/^Delay Reason[:\.]\s*/i` -/
def delayReasonStripRe : RE := .seq delayReasonTestRe (.star wsC)

/-- `/^Schedule Status[:\.]/i` -/
def schedStatusTestRe : RE := reSeqs [ci 'S' 's', ci 'C' 'c', ci 'H' 'h', ci 'E' 'e', ci 'D' 'd',
  ci 'U' 'u', ci 'L' 'l', ci 'E' 'e', lit ' ',
  ci 'S' 's', ci 'T' 't', ci 'A' 'a', ci 'T' 't', ci 'U' 'u', ci 'S' 's', colonOrDot]

/-- `/^Schedule Status[:\.]\s*/i` -/
def schedStatusStripRe : RE := .seq schedStatusTestRe (.star wsC)

/-- `message.replace(/\n{2,}/g, "\n")`: collapse each run of two or more
newlines into a single newline. -/
def collapseNL : List Char → List Char
  | [] => []
  | [c] => [c]
  | c :: d :: rest =>
    if c = '\n' ∧ d = '\n' then collapseNL (d :: rest)
    else c :: collapseNL (d :: rest)

/-- `String.prototype.trim`. -/
def jsTrim (s : List Char) : List Char :=
  ((s.dropWhile jsSpace).reverse.dropWhile jsSpace).reverse

/-- `String.prototype.split` on a single-character separator, keeping empty
fields (JavaScript semantics). -/
def splitChar (sep : Char) : List Char → List (List Char)
  | [] => [[]]
  | c :: rest =>
    if c = sep then [] :: splitChar sep rest
    else
      match splitChar sep rest with
      | [] => [[c]]
      | f :: fs => (c :: f) :: fs

def splitWsGo : List Char → Bool → List Char → List (List Char) → List (List Char)
  | [], _, cur, acc => (cur.reverse :: acc).reverse
  | c :: rest, inWs, cur, acc =>
    if jsSpace c then
      if inWs then splitWsGo rest true cur acc
      else splitWsGo rest true [] (cur.reverse :: acc)
    else splitWsGo rest false (c :: cur) acc

/-- `String.prototype.split(/\s+/)`: fields separated by maximal whitespace
runs; a leading (trailing) run contributes a leading (trailing) empty field. -/
def splitWs (s : List Char) : List (List Char) := splitWsGo s false [] []

def infoLineTest (l : List Char) : Bool := (reMatchAt infoRe l).isSome
def routeLineTest (l : List Char) : Bool := (reMatchAt routeRe l).isSome
def paxLineTest (l : List Char) : Bool := (reSearch paxTestRe l).isSome
def dlyLineTest (l : List Char) : Bool := (reMatchAt dlyTestRe l).isSome

/-- The normalizer (webhook.js lines 23-30): strip a leading `CORR`, strip a
leading `MVT`, remove carriage returns, collapse newline runs, trim, split
into lines, trim each line, drop empty lines. -/
def normalizeLines (message : String) : List (List Char) :=
  let msg := jsTrim (collapseNL ((replaceStart mvtRe (replaceStart corrRe message.data)).filter
    (fun c => !(c == '\r'))))
  ((splitChar '\n' msg).map jsTrim).filter (fun l => !l.isEmpty)

/-- `std = stdMatch[2] ? `${stdMatch[1]}:${stdMatch[2]}` : stdMatch[1]` -/
def timeFromCaps (caps : Caps) (old : List Char) : List Char :=
  match getCap caps 1 with
  | none => old
  | some h =>
    match getCap caps 2 with
    | none => h
    | some mn => h ++ ':' :: mn

/-- The STD/ATD extractor loop (webhook.js lines 57-63): every line is
scanned and a later match overwrites an earlier one. -/
def extractStdAtd (lines : List (List Char)) : List Char × List Char :=
  lines.foldl (fun p l =>
    let s := match reSearch stdRe l with
      | some caps => timeFromCaps caps p.1
      | none => p.1
    let a := match reSearch atdRe l with
      | some caps => timeFromCaps caps p.2
      | none => p.2
    (s, a)) ([], [])

/-- The route extractor (webhook.js lines 51-55): first matching line,
split on `-`. -/
def extractRoute (lines : List (List Char)) : List Char × List Char :=
  match lines.find? routeLineTest with
  | some rl => ((splitChar '-' rl).getD 0 [], (splitChar '-' rl).getD 1 [])
  | none => ([], [])

structure PaxCounts where
  total0 : Option Nat
  premium : Option Nat
  economy : Option Nat
  infant : Option Nat
  capacity : Option Nat
deriving Repr, DecidableEq

/-- The tiered PAX pattern match on the found PAX line (webhook.js
lines 66-84): the one-pass pattern first; only if it fails, the
premium/economy fallback and the independent `+Ninf` fallback. -/
def paxFromLine (pl : List Char) : PaxCounts :=
  match reSearch paxT1Re pl with
  | some caps =>
    let economy := (getCap caps 3).map natOfDigits
    { total0 := (getCap caps 1).map natOfDigits
      premium := (getCap caps 2).map natOfDigits
      economy := economy
      infant := (getCap caps 5).map natOfDigits
      capacity := economy }
  | none =>
    let pe : Option Nat × Option Nat :=
      match reSearch paxFbRe pl with
      | some caps => ((getCap caps 1).map natOfDigits, (getCap caps 2).map natOfDigits)
      | none => (none, none)
    let inf0 : Option Nat :=
      match reSearch infRe pl with
      | some caps => (getCap caps 1).map natOfDigits
      | none => none
    { total0 := none, premium := pe.1, economy := pe.2, infant := inf0, capacity := pe.2 }

def extractPax (lines : List (List Char)) : PaxCounts :=
  match lines.find? paxLineTest with
  | some pl => paxFromLine pl
  | none => { total0 := none, premium := none, economy := none, infant := none, capacity := none }

/-- The DLY extractor (webhook.js lines 93-96): the FIRST line starting with
`DLY:` or `DLY.`, with the label stripped. -/
def extractDly (lines : List (List Char)) : List Char :=
  match lines.find? dlyLineTest with
  | some l => replaceStart dlyStripRe l
  | none => []

/-- One iteration of the remark/status loop (webhook.js lines 98-103). -/
def remarkStep (t : List Char × List Char × List Char) (l : List Char) :
    List Char × List Char × List Char :=
  let r := if (reMatchAt siTestRe l).isSome then replaceStart siStripRe l else t.1
  let r := if (reMatchAt remarkTestRe l).isSome then replaceStart remarkStripRe l else r
  let d := if (reMatchAt delayReasonTestRe l).isSome then replaceStart delayReasonStripRe l else t.2.1
  let s := if (reMatchAt schedStatusTestRe l).isSome then replaceStart schedStatusStripRe l else t.2.2
  (r, d, s)

/-- The remark/status loop over all lines: later matches overwrite earlier
ones.  Components: (remark, delay_reason, schedule_status). -/
def extractRemarkLoop (lines : List (List Char)) (r0 d0 s0 : List Char) :
    List Char × List Char × List Char :=
  lines.foldl remarkStep (r0, d0, s0)

/-- webhook.js `parseMinutes`: `null` unless the string matches
`^([01]\d|2[0-3]):[0-5]\d$`; otherwise hours times 60 plus minutes. -/
def parseMinutes (t : String) : Option Nat :=
  match t.data with
  | [h1, h2, c, m1, m2] =>
    if (((h1 = '0' ∨ h1 = '1') ∧ ('0' ≤ h2 ∧ h2 ≤ '9')) ∨ (h1 = '2' ∧ ('0' ≤ h2 ∧ h2 ≤ '3'))) ∧
        c = ':' ∧ ('0' ≤ m1 ∧ m1 ≤ '5') ∧ ('0' ≤ m2 ∧ m2 ≤ '9') then
      some (((h1.toNat - '0'.toNat) * 10 + (h2.toNat - '0'.toNat)) * 60 +
            ((m1.toNat - '0'.toNat) * 10 + (m2.toNat - '0'.toNat)))
    else none
  | _ => none

structure FlightRecord where
  flight_date : Option String
  flight_no : String
  aircraft : String
  capacity : Option Nat
  departure : String
  arrival : String
  route : String
  std : String
  atd : String
  remark : String
  delay_reason : String
  schedule_status : String
  premium : Option Nat
  economy : Option Nat
  infant : Option Nat
  total_pax : Option Nat
deriving Repr, DecidableEq

/-- webhook.js lines 87-91: `sum_pax` is the sum of the non-null components;
`if (!total_pax || sum_pax > total_pax) total_pax = sum_pax` (note that a
parsed total of `0` is falsy in JavaScript). -/
def reconcileTotal (total0 premium economy infant : Option Nat) : Nat :=
  let sum_pax := premium.getD 0 + economy.getD 0 + infant.getD 0
  match total0 with
  | none => sum_pax
  | some t => if t = 0 ∨ sum_pax > t then sum_pax else t

/-- Assembly of the final row object (webhook.js lines 86-136): reconcile
the passenger total, derive the remark from STD/ATD when both parse,
always recompute `route`, and build the record. -/
def mkRecord (flight_date : Option (List Char))
    (flight_no aircraft departure arrival std atd : List Char)
    (px : PaxCounts) (remark0 delay_reason schedule_status : List Char) : FlightRecord :=
  let remark : List Char :=
    if !std.isEmpty && !atd.isEmpty then
      match parseMinutes (String.mk std), parseMinutes (String.mk atd) with
      | some stdMins, some atdMins =>
        if (atdMins : Int) - (stdMins : Int) > 15 then "Delayed".data else "On time".data
      | _, _ => remark0
    else remark0
  { flight_date := flight_date.map String.mk
    flight_no := String.mk flight_no
    aircraft := String.mk aircraft
    capacity := px.capacity
    departure := String.mk departure
    arrival := String.mk arrival
    route := String.mk (departure ++ '-' :: arrival)
    std := String.mk std
    atd := String.mk atd
    remark := String.mk remark
    delay_reason := String.mk delay_reason
    schedule_status := String.mk schedule_status
    premium := px.premium
    economy := px.economy
    infant := px.infant
    total_pax := some (reconcileTotal px.total0 px.premium px.economy px.infant) }

/-- Everything after the identity-line check succeeds (webhook.js
lines 42-136). -/
def buildRecord (lines : List (List Char)) (infoLine : List Char) : FlightRecord :=
  let toks := splitWs infoLine
  let flight_no := toks.getD 0 []
  let dateStr := toks.getD 1 []
  let aircraft := toks.getD 2 []
  let flight_date : Option (List Char) :=
    if dateStr.length = 6 ∧ dateStr.all isDig then
      some ('2' :: '0' :: dateStr.take 2 ++
        '-' :: ((dateStr.drop 2).take 2 ++ '-' :: (dateStr.drop 4).take 2))
    else none
  let da := extractRoute lines
  let sa := extractStdAtd lines
  let px := extractPax lines
  let dly := extractDly lines
  let rds := extractRemarkLoop lines [] dly "On Schedule".data
  mkRecord flight_date flight_no aircraft da.1 da.2 sa.1 sa.2 px rds.1 rds.2.1 rds.2.2

/-- webhook.js `parseFlightMessage`: normalize, find the identity line
(`null` if absent), otherwise build the record. -/
def parseFlightMessage (message : String) : Option FlightRecord :=
  let lines := normalizeLines message
  (lines.find? infoLineTest).map (buildRecord lines)

/-! ## Plumbing lemmas -/

theorem parse_eq_some_iff {m : String} {r : FlightRecord} :
    parseFlightMessage m = some r ↔
      ∃ il, (normalizeLines m).find? infoLineTest = some il ∧
        buildRecord (normalizeLines m) il = r := by
  show ((normalizeLines m).find? infoLineTest).map (buildRecord (normalizeLines m)) = some r ↔ _
  rw [Option.map_eq_some']

theorem buildRecord_premium (lines : List (List Char)) (il : List Char) :
    (buildRecord lines il).premium = (extractPax lines).premium := rfl

theorem buildRecord_economy (lines : List (List Char)) (il : List Char) :
    (buildRecord lines il).economy = (extractPax lines).economy := rfl

theorem buildRecord_infant (lines : List (List Char)) (il : List Char) :
    (buildRecord lines il).infant = (extractPax lines).infant := rfl

theorem buildRecord_capacity (lines : List (List Char)) (il : List Char) :
    (buildRecord lines il).capacity = (extractPax lines).capacity := rfl

theorem buildRecord_total_pax (lines : List (List Char)) (il : List Char) :
    (buildRecord lines il).total_pax =
      some (reconcileTotal (extractPax lines).total0 (extractPax lines).premium
        (extractPax lines).economy (extractPax lines).infant) := rfl

theorem buildRecord_departure (lines : List (List Char)) (il : List Char) :
    (buildRecord lines il).departure = String.mk (extractRoute lines).1 := rfl

theorem buildRecord_arrival (lines : List (List Char)) (il : List Char) :
    (buildRecord lines il).arrival = String.mk (extractRoute lines).2 := rfl

theorem buildRecord_route (lines : List (List Char)) (il : List Char) :
    (buildRecord lines il).route =
      String.mk ((extractRoute lines).1 ++ '-' :: (extractRoute lines).2) := rfl

theorem buildRecord_std (lines : List (List Char)) (il : List Char) :
    (buildRecord lines il).std = String.mk (extractStdAtd lines).1 := rfl

theorem buildRecord_atd (lines : List (List Char)) (il : List Char) :
    (buildRecord lines il).atd = String.mk (extractStdAtd lines).2 := rfl

theorem buildRecord_schedule_status (lines : List (List Char)) (il : List Char) :
    (buildRecord lines il).schedule_status =
      String.mk (extractRemarkLoop lines [] (extractDly lines) "On Schedule".data).2.2 := rfl

theorem buildRecord_delay_reason (lines : List (List Char)) (il : List Char) :
    (buildRecord lines il).delay_reason =
      String.mk (extractRemarkLoop lines [] (extractDly lines) "On Schedule".data).2.1 := rfl

theorem buildRecord_flight_date (lines : List (List Char)) (il : List Char) :
    (buildRecord lines il).flight_date =
      (if ((splitWs il).getD 1 []).length = 6 ∧ ((splitWs il).getD 1 []).all isDig then
        some ('2' :: '0' :: ((splitWs il).getD 1 []).take 2 ++
          '-' :: ((((splitWs il).getD 1 []).drop 2).take 2 ++
            '-' :: (((splitWs il).getD 1 []).drop 4).take 2))
      else none).map String.mk := rfl

/-! ## C9 -/

/-- C9: parsing is deterministic — the engine is a pure function of the raw
text, so two invocations on the same input yield identical results. -/
theorem parse_deterministic (m : String) : parseFlightMessage m = parseFlightMessage m := rfl

/-! ## C4 -/

/-- C4: if no line of the normalized line sequence matches the identity
pattern (3 uppercase letters + 3 digits, whitespace, 6 digits), the parser
returns no record at all. -/
theorem no_identity_line_no_record (m : String)
    (h : ∀ l ∈ normalizeLines m, infoLineTest l = false) :
    parseFlightMessage m = none := by
  show ((normalizeLines m).find? infoLineTest).map (buildRecord (normalizeLines m)) = none
  have hn : (normalizeLines m).find? infoLineTest = none := by
    rw [List.find?_eq_none]
    intro x hx
    simp [h x hx]
  rw [hn]
  rfl

theorem no_identity_line_no_record_witness :
    parseFlightMessage "hello world" = none :=
  no_identity_line_no_record "hello world" (by decide)

/-! ## C2 -/

/-- C2 counterexample: a message with an identity line but no route line
yields a record whose departure and arrival are unknown (empty) but whose
route is "-", not the empty string. -/
theorem route_empty_counterexample :
    (parseFlightMessage "IAN521 250527").map (fun r => (r.departure, r.arrival, r.route)) =
      some ("", "", "-") := rfl

/-- C2 (amended): in every record the parser produces, route equals
departure concatenated with a hyphen and arrival — also when departure and
arrival are unknown (both empty), in which case route is "-" rather than
the empty string. -/
theorem route_always_recomputed (m : String) (r : FlightRecord)
    (h : parseFlightMessage m = some r) :
    r.route = r.departure ++ "-" ++ r.arrival := by
  obtain ⟨il, hfind, rfl⟩ := parse_eq_some_iff.mp h
  rw [buildRecord_route, buildRecord_departure, buildRecord_arrival]
  apply String.ext
  show (extractRoute (normalizeLines m)).1 ++ '-' :: (extractRoute (normalizeLines m)).2 =
    ((extractRoute (normalizeLines m)).1 ++ ['-']) ++ (extractRoute (normalizeLines m)).2
  rw [List.append_assoc]
  rfl

def recRouteW : FlightRecord :=
  { flight_date := some "2025-05-27", flight_no := "IAN521", aircraft := "5N-CEE",
    capacity := none, departure := "ABV", arrival := "LOS", route := "ABV-LOS",
    std := "", atd := "", remark := "", delay_reason := "",
    schedule_status := "On Schedule", premium := none, economy := none,
    infant := none, total_pax := some 0 }

theorem route_always_recomputed_witness :
    parseFlightMessage "IAN521 250527 5N-CEE\nABV-LOS" = some recRouteW ∧
      recRouteW.route = recRouteW.departure ++ "-" ++ recRouteW.arrival :=
  ⟨rfl, route_always_recomputed "IAN521 250527 5N-CEE\nABV-LOS" recRouteW rfl⟩

/-! ## C1 -/

/-- C1: the final total_pax is the larger of the explicitly parsed total and
the sum of the known values among premium, economy, infant (unknown treated
as zero); if no total was parsed the sum is used directly.  Consequently,
in every parsed record in which premium, economy and infant are all known,
total_pax is at least their sum. -/
theorem total_pax_reconciliation :
    (∀ (t : Nat) (p e i : Option Nat),
        reconcileTotal (some t) p e i = max t (p.getD 0 + e.getD 0 + i.getD 0) ∧
        reconcileTotal none p e i = p.getD 0 + e.getD 0 + i.getD 0) ∧
    (∀ (m : String) (r : FlightRecord) (p e i t : Nat),
        parseFlightMessage m = some r →
        r.premium = some p → r.economy = some e → r.infant = some i →
        r.total_pax = some t → p + e + i ≤ t) := by
  constructor
  · intro t p e i
    constructor
    · show (if t = 0 ∨ _ > t then _ else t) = _
      rw [Nat.max_def]
      split_ifs <;> omega
    · rfl
  · intro m r p e i t h hp he hi ht
    obtain ⟨il, hfind, rfl⟩ := parse_eq_some_iff.mp h
    rw [buildRecord_premium] at hp
    rw [buildRecord_economy] at he
    rw [buildRecord_infant] at hi
    rw [buildRecord_total_pax, hp, he, hi] at ht
    injection ht with ht
    subst ht
    cases h0 : (extractPax (normalizeLines m)).total0 with
    | none => simp [reconcileTotal]
    | some t0 =>
      show p + e + i ≤ (if t0 = 0 ∨ _ > t0 then _ else t0)
      split_ifs with hif <;> simp_all

def rec130 : FlightRecord :=
  { flight_date := some "2025-05-27", flight_no := "IAN521", aircraft := "",
    capacity := some 120, departure := "", arrival := "", route := "-",
    std := "", atd := "", remark := "", delay_reason := "",
    schedule_status := "On Schedule", premium := some 9, economy := some 120,
    infant := some 1, total_pax := some 130 }

theorem total_pax_reconciliation_witness : 9 + 120 + 1 ≤ 130 :=
  total_pax_reconciliation.2 "IAN521 250527\nPAX:(130)09/120+01inf" rec130 9 120 1 130
    rfl rfl rfl rfl rfl

/-! ## C10 -/

/-- C10: every record the parser produces has total_pax set to a
(non-negative) natural number, never null; in particular, when no total and
no passenger components were parsed at all, total_pax is 0. -/
theorem total_pax_always_set (m : String) (r : FlightRecord)
    (h : parseFlightMessage m = some r) :
    (∃ n : Nat, r.total_pax = some n) ∧
    (extractPax (normalizeLines m) = ⟨none, none, none, none, none⟩ →
      r.total_pax = some 0) := by
  obtain ⟨il, hfind, rfl⟩ := parse_eq_some_iff.mp h
  rw [buildRecord_total_pax]
  constructor
  · exact ⟨_, rfl⟩
  · intro hp
    rw [hp]
    rfl

def recPax0 : FlightRecord :=
  { flight_date := some "2025-05-27", flight_no := "IAN521", aircraft := "",
    capacity := none, departure := "", arrival := "", route := "-",
    std := "", atd := "", remark := "", delay_reason := "",
    schedule_status := "On Schedule", premium := none, economy := none,
    infant := none, total_pax := some 0 }

theorem total_pax_always_set_witness :
    (∃ n : Nat, recPax0.total_pax = some n) ∧
    (extractPax (normalizeLines "IAN521 250527") = ⟨none, none, none, none, none⟩ →
      recPax0.total_pax = some 0) :=
  total_pax_always_set "IAN521 250527" recPax0 rfl

/-! ## C3 -/

theorem mkRecord_remark (fd : Option (List Char)) (fn ac dep arr std atd : List Char)
    (px : PaxCounts) (r0 dr ss : List Char) :
    (mkRecord fd fn ac dep arr std atd px r0 dr ss).remark = String.mk (
      match parseMinutes (String.mk std), parseMinutes (String.mk atd) with
      | some stdMins, some atdMins =>
        if (atdMins : Int) - (stdMins : Int) > 15 then "Delayed".data else "On time".data
      | _, _ => r0) := by
  cases std with
  | nil => rfl
  | cons c cs =>
    cases atd with
    | nil =>
      cases hpm : parseMinutes (String.mk (c :: cs)) with
      | none => simp [mkRecord, hpm]
      | some v =>
        have hpe : parseMinutes (String.mk []) = none := rfl
        simp [mkRecord, hpm, hpe]
    | cons d ds => rfl

theorem buildRecord_remark (lines : List (List Char)) (il : List Char) :
    (buildRecord lines il).remark = String.mk (
      match parseMinutes (String.mk (extractStdAtd lines).1),
            parseMinutes (String.mk (extractStdAtd lines).2) with
      | some stdMins, some atdMins =>
        if (atdMins : Int) - (stdMins : Int) > 15 then "Delayed".data else "On time".data
      | _, _ => (extractRemarkLoop lines [] (extractDly lines) "On Schedule".data).1) :=
  mkRecord_remark _ _ _ _ _ _ _ _ _ _ _

/-- C3: when both std and atd parse as valid HH:MM times, remark is set from
the time difference (Delayed when it exceeds 15 minutes, On time otherwise),
overriding any literal remark; when either time is missing or malformed the
literal remark extracted by the remark/status loop is left untouched. -/
theorem remark_from_timing (m : String) (r : FlightRecord)
    (h : parseFlightMessage m = some r) :
    r.remark = String.mk (
      match parseMinutes r.std, parseMinutes r.atd with
      | some stdMins, some atdMins =>
        if (atdMins : Int) - (stdMins : Int) > 15 then "Delayed".data else "On time".data
      | _, _ => (extractRemarkLoop (normalizeLines m) [] (extractDly (normalizeLines m))
          "On Schedule".data).1) := by
  obtain ⟨il, hfind, rfl⟩ := parse_eq_some_iff.mp h
  rw [buildRecord_std, buildRecord_atd, buildRecord_remark]

def recTime : FlightRecord :=
  { flight_date := some "2025-05-27", flight_no := "IAN521", aircraft := "5N-CEE",
    capacity := some 70, departure := "ABV", arrival := "LOS", route := "ABV-LOS",
    std := "08:00", atd := "08:10", remark := "On time", delay_reason := "",
    schedule_status := "On Schedule", premium := some 7, economy := some 70,
    infant := none, total_pax := some 77 }

theorem remark_from_timing_witness :
    parseFlightMessage "IAN521 250527 5N-CEE\nABV-LOS\nSTD:08:00\nATD:08:10\nPAX:(77)07/70" =
      some recTime ∧
    recTime.remark = String.mk (
      match parseMinutes recTime.std, parseMinutes recTime.atd with
      | some stdMins, some atdMins =>
        if (atdMins : Int) - (stdMins : Int) > 15 then "Delayed".data else "On time".data
      | _, _ => (extractRemarkLoop
          (normalizeLines "IAN521 250527 5N-CEE\nABV-LOS\nSTD:08:00\nATD:08:10\nPAX:(77)07/70") []
          (extractDly
            (normalizeLines "IAN521 250527 5N-CEE\nABV-LOS\nSTD:08:00\nATD:08:10\nPAX:(77)07/70"))
          "On Schedule".data).1) :=
  ⟨rfl, remark_from_timing
    "IAN521 250527 5N-CEE\nABV-LOS\nSTD:08:00\nATD:08:10\nPAX:(77)07/70" recTime rfl⟩

/-! ## C7 -/

/-- C7: for every parsed record, flight_date is either unset or the full
expansion of a 6-digit YYMMDD token with century prefix 20, in the shape
20YY-MM-DD; no partially-substituted string is ever produced. -/
theorem flight_date_well_formed (m : String) (r : FlightRecord)
    (h : parseFlightMessage m = some r) :
    r.flight_date = none ∨
    ∃ d1 d2 d3 d4 d5 d6 : Char,
      (isDig d1 = true ∧ isDig d2 = true ∧ isDig d3 = true ∧ isDig d4 = true ∧
        isDig d5 = true ∧ isDig d6 = true) ∧
      r.flight_date = some (String.mk ['2', '0', d1, d2, '-', d3, d4, '-', d5, d6]) := by
  obtain ⟨il, hfind, rfl⟩ := parse_eq_some_iff.mp h
  rw [buildRecord_flight_date]
  generalize (splitWs il).getD 1 [] = ds
  by_cases hc : ds.length = 6 ∧ ds.all isDig
  · right
    obtain ⟨hlen, hdig⟩ := hc
    rcases ds with _ | ⟨a, ds⟩; · simp at hlen
    rcases ds with _ | ⟨b, ds⟩; · simp at hlen
    rcases ds with _ | ⟨c2, ds⟩; · simp at hlen
    rcases ds with _ | ⟨d, ds⟩; · simp at hlen
    rcases ds with _ | ⟨e, ds⟩; · simp at hlen
    rcases ds with _ | ⟨f, ds⟩; · simp at hlen
    rcases ds with _ | ⟨g, ds⟩
    · refine ⟨a, b, c2, d, e, f, ?_, ?_⟩
      · simpa using hdig
      · rw [if_pos ⟨by simp, hdig⟩]
        rfl
    · simp at hlen
  · left
    rw [if_neg hc]
    rfl

def recDate : FlightRecord :=
  { flight_date := some "2025-05-27", flight_no := "IAN521", aircraft := "5N-CEE",
    capacity := some 70, departure := "ABV", arrival := "LOS", route := "ABV-LOS",
    std := "08:00", atd := "08:10", remark := "On time", delay_reason := "",
    schedule_status := "On Schedule", premium := some 7, economy := some 70,
    infant := none, total_pax := some 77 }

theorem flight_date_well_formed_witness :
    recDate.flight_date = none ∨
    ∃ d1 d2 d3 d4 d5 d6 : Char,
      (isDig d1 = true ∧ isDig d2 = true ∧ isDig d3 = true ∧ isDig d4 = true ∧
        isDig d5 = true ∧ isDig d6 = true) ∧
      recDate.flight_date = some (String.mk ['2', '0', d1, d2, '-', d3, d4, '-', d5, d6]) :=
  flight_date_well_formed
    "IAN521 250527 5N-CEE\nABV-LOS\nSTD:08:00\nATD:08:10\nPAX:(77)07/70" recDate rfl

/-! ## C5 -/

/-- C5 counterexample: the PAX line "PAX:(77)07/70 +01inf" contains a `+N`
infant marker and the tier-1 pattern matches the rest of the line, yet the
produced record has infant unset — the independent infant fallback is not
applied when tier 1 matched. -/
theorem infant_marker_ignored_counterexample :
    (parseFlightMessage "IAN521 250527\nPAX:(77)07/70 +01inf").map (fun r => r.infant) =
      some none ∧
    (reSearch infRe "PAX:(77)07/70 +01inf".data).isSome = true ∧
    (reSearch paxT1Re "PAX:(77)07/70 +01inf".data).isSome = true :=
  ⟨rfl, rfl, rfl⟩

/-- C5 (amended): the independent `+N` infant fallback applies only when the
tier-1 one-pass pattern fails on the PAX line; in that case any `+N` infant
marker anywhere in the line sets infant to N.  (When tier 1 matches, infant
is set only from tier 1's own inline suffix group.) -/
theorem infant_fallback_on_tier1_failure (m : String) (r : FlightRecord)
    (pl ds : List Char) (caps : Caps)
    (h : parseFlightMessage m = some r)
    (hpl : (normalizeLines m).find? paxLineTest = some pl)
    (ht1 : reSearch paxT1Re pl = none)
    (hinf : reSearch infRe pl = some caps)
    (hcap : getCap caps 1 = some ds) :
    r.infant = some (natOfDigits ds) := by
  obtain ⟨il, hfind, rfl⟩ := parse_eq_some_iff.mp h
  rw [buildRecord_infant]
  simp only [extractPax, hpl, paxFromLine, ht1, hinf, hcap, Option.map_some']

def recInf : FlightRecord :=
  { flight_date := some "2025-05-27", flight_no := "IAN521", aircraft := "",
    capacity := some 70, departure := "", arrival := "", route := "-",
    std := "", atd := "", remark := "", delay_reason := "",
    schedule_status := "On Schedule", premium := some 8, economy := some 70,
    infant := some 1, total_pax := some 79 }

theorem infant_fallback_on_tier1_failure_witness :
    parseFlightMessage "IAN521 250527\nPAX: 8/70+1inf" = some recInf ∧
    recInf.infant = some (natOfDigits ['1']) :=
  ⟨rfl, infant_fallback_on_tier1_failure "IAN521 250527\nPAX: 8/70+1inf" recInf
    ("PAX: 8/70+1inf".data) ['1'] [(2, ['i', 'n', 'f']), (1, ['1'])] rfl rfl rfl rfl rfl⟩

/-! ## C6 -/

/-- C6 counterexample: with two DLY lines, the FIRST one determines
delay_reason — the later line of the same kind does not override it. -/
theorem dly_first_match_counterexample :
    (parseFlightMessage "IAN521 250527\nDLY:AAA\nDLY:BBB").map (fun r => r.delay_reason) =
      some "AAA" ∧
    dlyLineTest "DLY:BBB".data = true :=
  ⟨rfl, rfl⟩

theorem foldl_override (test : List Char → Bool) (f : List Char → List Char)
    (lines : List (List Char)) :
    ∀ init : List Char,
      lines.foldl (fun acc l => if test l then f l else acc) init =
        ((lines.reverse.find? test).map f).getD init := by
  induction lines with
  | nil => intro init; rfl
  | cons l ls ih =>
    intro init
    rw [List.foldl_cons, ih, List.reverse_cons, List.find?_append]
    cases hfind : ls.reverse.find? test with
    | some x => simp [Option.or]
    | none =>
      by_cases ht : test l <;> simp [Option.or, ht, List.find?]

theorem extractRemarkLoop_components (lines : List (List Char)) :
    ∀ r0 d0 s0 : List Char,
      extractRemarkLoop lines r0 d0 s0 =
        (lines.foldl (fun acc l =>
            if (reMatchAt remarkTestRe l).isSome then replaceStart remarkStripRe l
            else if (reMatchAt siTestRe l).isSome then replaceStart siStripRe l
            else acc) r0,
         lines.foldl (fun acc l =>
            if (reMatchAt delayReasonTestRe l).isSome then replaceStart delayReasonStripRe l
            else acc) d0,
         lines.foldl (fun acc l =>
            if (reMatchAt schedStatusTestRe l).isSome then replaceStart schedStatusStripRe l
            else acc) s0) := by
  induction lines with
  | nil => intro r0 d0 s0; rfl
  | cons l ls ih =>
    intro r0 d0 s0
    simp only [extractRemarkLoop, List.foldl_cons]
    exact ih
      (if (reMatchAt remarkTestRe l).isSome then replaceStart remarkStripRe l
       else if (reMatchAt siTestRe l).isSome then replaceStart siStripRe l else r0)
      (if (reMatchAt delayReasonTestRe l).isSome then replaceStart delayReasonStripRe l else d0)
      (if (reMatchAt schedStatusTestRe l).isSome then replaceStart schedStatusStripRe l else s0)

theorem remark_component_last_match (lines : List (List Char)) (r0 d0 s0 : List Char) :
    (extractRemarkLoop lines r0 d0 s0).1 =
      ((lines.reverse.find? (fun l =>
          (reMatchAt remarkTestRe l).isSome || (reMatchAt siTestRe l).isSome)).map
        (fun l => if (reMatchAt remarkTestRe l).isSome then replaceStart remarkStripRe l
                  else replaceStart siStripRe l)).getD r0 := by
  have hfun : (fun (acc l : List Char) =>
      if (reMatchAt remarkTestRe l).isSome then replaceStart remarkStripRe l
      else if (reMatchAt siTestRe l).isSome then replaceStart siStripRe l
      else acc) =
    (fun (acc l : List Char) =>
      if ((reMatchAt remarkTestRe l).isSome || (reMatchAt siTestRe l).isSome) then
        (if (reMatchAt remarkTestRe l).isSome then replaceStart remarkStripRe l
         else replaceStart siStripRe l)
      else acc) := by
    funext acc l
    by_cases h1 : (reMatchAt remarkTestRe l).isSome <;>
      by_cases h2 : (reMatchAt siTestRe l).isSome <;> simp [h1, h2]
  rw [extractRemarkLoop_components, hfun,
    foldl_override (fun l => (reMatchAt remarkTestRe l).isSome || (reMatchAt siTestRe l).isSome)
      (fun l => if (reMatchAt remarkTestRe l).isSome then replaceStart remarkStripRe l
                else replaceStart siStripRe l)]

/-- C6 (amended): for the remark/status loop's fields, the LAST matching line
wins: schedule_status is set by the last "Schedule Status" line (default "On
Schedule"); the literal remark component is set by the last line matching
the "SI:" or "Remark" labels (and is the record's remark whenever the
timing derivation does not apply); and delay_reason is set by the last
"Delay Reason" line if any — such a line overrides every `DLY:` line
regardless of position; absent one, the FIRST `DLY:` line (not the last)
determines delay_reason. -/
theorem last_match_semantics (m : String) (r : FlightRecord)
    (h : parseFlightMessage m = some r) :
    r.schedule_status = String.mk
      ((((normalizeLines m).reverse.find? (fun l => (reMatchAt schedStatusTestRe l).isSome)).map
        (replaceStart schedStatusStripRe)).getD "On Schedule".data) ∧
    r.delay_reason = String.mk
      ((((normalizeLines m).reverse.find? (fun l => (reMatchAt delayReasonTestRe l).isSome)).map
        (replaceStart delayReasonStripRe)).getD
          ((((normalizeLines m).find? dlyLineTest).map (replaceStart dlyStripRe)).getD [])) ∧
    (extractRemarkLoop (normalizeLines m) [] (extractDly (normalizeLines m))
        "On Schedule".data).1 =
      (((normalizeLines m).reverse.find? (fun l =>
          (reMatchAt remarkTestRe l).isSome || (reMatchAt siTestRe l).isSome)).map
        (fun l => if (reMatchAt remarkTestRe l).isSome then replaceStart remarkStripRe l
                  else replaceStart siStripRe l)).getD [] ∧
    ((parseMinutes r.std = none ∨ parseMinutes r.atd = none) →
      r.remark = String.mk
        ((((normalizeLines m).reverse.find? (fun l =>
            (reMatchAt remarkTestRe l).isSome || (reMatchAt siTestRe l).isSome)).map
          (fun l => if (reMatchAt remarkTestRe l).isSome then replaceStart remarkStripRe l
                    else replaceStart siStripRe l)).getD [])) := by
  obtain ⟨il, hfind, rfl⟩ := parse_eq_some_iff.mp h
  have hdly : extractDly (normalizeLines m) =
      (((normalizeLines m).find? dlyLineTest).map (replaceStart dlyStripRe)).getD [] := by
    unfold extractDly
    cases (normalizeLines m).find? dlyLineTest <;> rfl
  refine ⟨?_, ?_, ?_, ?_⟩
  · rw [buildRecord_schedule_status, extractRemarkLoop_components,
      foldl_override (fun l => (reMatchAt schedStatusTestRe l).isSome)
        (replaceStart schedStatusStripRe)]
  · rw [buildRecord_delay_reason, extractRemarkLoop_components,
      foldl_override (fun l => (reMatchAt delayReasonTestRe l).isSome)
        (replaceStart delayReasonStripRe), hdly]
  · exact remark_component_last_match (normalizeLines m) []
      (extractDly (normalizeLines m)) "On Schedule".data
  · intro hnone
    rw [buildRecord_std, buildRecord_atd] at hnone
    rw [buildRecord_remark,
      ← remark_component_last_match (normalizeLines m) []
        (extractDly (normalizeLines m)) "On Schedule".data]
    rcases hnone with h1 | h1
    · simp only [h1]
    · cases hpm : parseMinutes (String.mk (extractStdAtd (normalizeLines m)).1) <;>
        simp only [hpm, h1]

def recLast : FlightRecord :=
  { flight_date := some "2025-05-27", flight_no := "IAN521", aircraft := "",
    capacity := none, departure := "", arrival := "", route := "-",
    std := "", atd := "", remark := "Y", delay_reason := "R1",
    schedule_status := "B", premium := none, economy := none,
    infant := none, total_pax := some 0 }

theorem last_match_semantics_witness :
    parseFlightMessage
      "IAN521 250527\nSI: X\nRemark: Y\nSchedule Status: A\nSchedule Status: B\nDelay Reason: R1\nDLY: D9" =
        some recLast ∧
    (recLast.schedule_status = String.mk
      ((((normalizeLines
          "IAN521 250527\nSI: X\nRemark: Y\nSchedule Status: A\nSchedule Status: B\nDelay Reason: R1\nDLY: D9").reverse.find?
            (fun l => (reMatchAt schedStatusTestRe l).isSome)).map
        (replaceStart schedStatusStripRe)).getD "On Schedule".data) ∧
     recLast.delay_reason = String.mk
      ((((normalizeLines
          "IAN521 250527\nSI: X\nRemark: Y\nSchedule Status: A\nSchedule Status: B\nDelay Reason: R1\nDLY: D9").reverse.find?
            (fun l => (reMatchAt delayReasonTestRe l).isSome)).map
        (replaceStart delayReasonStripRe)).getD
          ((((normalizeLines
              "IAN521 250527\nSI: X\nRemark: Y\nSchedule Status: A\nSchedule Status: B\nDelay Reason: R1\nDLY: D9").find?
                dlyLineTest).map (replaceStart dlyStripRe)).getD [])) ∧
     (extractRemarkLoop
        (normalizeLines
          "IAN521 250527\nSI: X\nRemark: Y\nSchedule Status: A\nSchedule Status: B\nDelay Reason: R1\nDLY: D9")
        []
        (extractDly (normalizeLines
          "IAN521 250527\nSI: X\nRemark: Y\nSchedule Status: A\nSchedule Status: B\nDelay Reason: R1\nDLY: D9"))
        "On Schedule".data).1 =
      (((normalizeLines
          "IAN521 250527\nSI: X\nRemark: Y\nSchedule Status: A\nSchedule Status: B\nDelay Reason: R1\nDLY: D9").reverse.find?
          (fun l => (reMatchAt remarkTestRe l).isSome || (reMatchAt siTestRe l).isSome)).map
        (fun l => if (reMatchAt remarkTestRe l).isSome then replaceStart remarkStripRe l
                  else replaceStart siStripRe l)).getD [] ∧
     ((parseMinutes recLast.std = none ∨ parseMinutes recLast.atd = none) →
       recLast.remark = String.mk
        ((((normalizeLines
            "IAN521 250527\nSI: X\nRemark: Y\nSchedule Status: A\nSchedule Status: B\nDelay Reason: R1\nDLY: D9").reverse.find?
            (fun l => (reMatchAt remarkTestRe l).isSome || (reMatchAt siTestRe l).isSome)).map
          (fun l => if (reMatchAt remarkTestRe l).isSome then replaceStart remarkStripRe l
                    else replaceStart siStripRe l)).getD []))) :=
  ⟨rfl, last_match_semantics
    "IAN521 250527\nSI: X\nRemark: Y\nSchedule Status: A\nSchedule Status: B\nDelay Reason: R1\nDLY: D9"
    recLast rfl⟩

/-! ## C8 -/

/-- C8 counterexample: on the spec's Example 1 input the parser sets remark
to "On time" (capital O), not the claimed literal "on time"; all other
claimed field values do hold. -/
theorem example1_remark_counterexample :
    (parseFlightMessage "IAN521 250527 5N-CEE\nABV-LOS\nSTD:08:00\nATD:08:10\nPAX:(77)07/70").map
        (fun r => r.remark) = some "On time" ∧
    ¬ ((parseFlightMessage "IAN521 250527 5N-CEE\nABV-LOS\nSTD:08:00\nATD:08:10\nPAX:(77)07/70").map
        (fun r => r.remark) = some "on time") :=
  ⟨rfl, by decide⟩

/-- C8 (amended): Example 1 parses to exactly this record — flight_no
"IAN521", flight_date "2025-05-27", aircraft "5N-CEE", route "ABV-LOS",
std "08:00", atd "08:10", remark "On time" (the code capitalizes the
status), total_pax 77, premium 7, economy 70, capacity 70. -/
theorem example1_full_record :
    parseFlightMessage "IAN521 250527 5N-CEE\nABV-LOS\nSTD:08:00\nATD:08:10\nPAX:(77)07/70" =
      some { flight_date := some "2025-05-27", flight_no := "IAN521", aircraft := "5N-CEE",
             capacity := some 70, departure := "ABV", arrival := "LOS", route := "ABV-LOS",
             std := "08:00", atd := "08:10", remark := "On time", delay_reason := "",
             schedule_status := "On Schedule", premium := some 7, economy := some 70,
             infant := none, total_pax := some 77 } := rfl
